import Mathlib

/-!
Verification development for the integration-service repository: a shallow
embedding of the git-status reporting subsystem (GitLab reporter) and of the
build-PipelineRun adapter's snapshot bookkeeping, with theorems settling the
frozen claims about them.

The repository's checked-in sources contain the test suites
(status/reporter_gitlab_test.go and the buildpipeline adapter tests), the
vendored GitLab SDK and deployment manifests, but not the production
implementations of the reporter and adapter.  Each operation below is
therefore modelled from the specification document, with the repository's own
tests taken as the authority wherever they pin a concrete behavior (return
values, log lines, mapping tables, metadata keys).
-/

namespace IntegrationSvc

/-! ## Metadata maps

Kubernetes object labels and annotations are string-to-string maps; they are
embedded as association lists with first-match lookup (keys are unique on
real objects). -/

abbrev MetaMap := List (String × String)

def lookupMeta (m : MetaMap) (k : String) : Option String :=
  match m with
  | [] => none
  | (k2, v) :: rest => if k2 == k then some v else lookupMeta rest k

/-- Metadata of a Snapshot as the reporters see it: its labels and its
annotations. -/
structure SnapMeta where
  labels : MetaMap
  annots : MetaMap
deriving Repr, DecidableEq

/-! Metadata keys used by the reporter, as pinned by the repository's
reporter_gitlab_test.go fixtures. -/

def gitProviderKey : String := "pac.test.appstudio.openshift.io/git-provider"
def repoUrlKey : String := "pac.test.appstudio.openshift.io/repo-url"
def shaKey : String := "pac.test.appstudio.openshift.io/sha"
def targetProjectIdKey : String := "pac.test.appstudio.openshift.io/target-project-id"
def sourceProjectIdKey : String := "pac.test.appstudio.openshift.io/source-project-id"
def pullRequestKey : String := "pac.test.appstudio.openshift.io/pull-request"

/-! ## Status-Kind taxonomy and the GitLab mapping -/

/-- The closed enumeration of integration-test statuses (Status-Kind
taxonomy), as enumerated by the spec's data model and exercised one by one by
the reporter tests. -/
inductive ITStatus where
  | Pending
  | InProgress
  | EnvironmentProvisionError
  | DeploymentError
  | TestPassed
  | TestFail
  | TestInvalid
  | Deleted
  | BuildPLRInProgress
  | BuildPLRFailed
  | SnapshotCreationFailed
  | GroupSnapshotCreationFailed
deriving Repr, DecidableEq, BEq

/-- GitLab native commit-status states (the build-state vocabulary of the
vendored GitLab SDK). -/
inductive GLState where
  | pending
  | running
  | success
  | failed
  | canceled
deriving Repr, DecidableEq, BEq

/-- The wire string of each GitLab build state, as in the vendored SDK. -/
def glStateStr : GLState → String
  | .pending => "pending"
  | .running => "running"
  | .success => "success"
  | .failed => "failed"
  | .canceled => "canceled"

/-- Modelled from the spec: the Status-Kind to GitLab mapping table of
section 4.1 (the production GenerateGitlabCommitState is not among the
checked-in sources).  The per-value entries are the ones the repository's
mapping-table test pins, and an unrecognized value would be a hard error,
which over this closed enumeration never occurs. -/
def GenerateGitlabCommitState : ITStatus → Except String GLState
  | .EnvironmentProvisionError => .ok .failed
  | .DeploymentError => .ok .failed
  | .TestFail => .ok .failed
  | .TestInvalid => .ok .failed
  | .TestPassed => .ok .success
  | .InProgress => .ok .running
  | .Pending => .ok .pending
  | .BuildPLRInProgress => .ok .pending
  | .Deleted => .ok .canceled
  | .BuildPLRFailed => .ok .canceled
  | .SnapshotCreationFailed => .ok .canceled
  | .GroupSnapshotCreationFailed => .ok .canceled

def exceptIsOk : Except ε α → Bool
  | .ok _ => true
  | .error _ => false

theorem generateGitlabCommitState_total (s : ITStatus) :
    exceptIsOk (GenerateGitlabCommitState s) = true := by
  cases s <;> rfl

/-! ## GitLab reporter -/

/-- The initialized GitLab reporter: provenance extracted from the Snapshot
by Initialize. -/
structure GitLabRep where
  repoUrl : String
  sha : String
  targetProjectID : String
  sourceProjectID : String
  mergeRequest : Option String
deriving Repr, DecidableEq

/-- Modelled from the spec: Detect inspects the snapshot label and the
snapshot annotation declaring the provider kind, case-sensitive exact match
against the provider's canonical name (the production Detect is not among the
checked-in sources; the or-semantics over label and annotation is pinned by
the detection test). -/
def Detect (snap : SnapMeta) : Bool :=
  lookupMeta snap.labels gitProviderKey == some "gitlab"
    || lookupMeta snap.annots gitProviderKey == some "gitlab"

/-- Modelled from the spec: Initialize extracts repository URL, commit SHA
and source and target project identifiers from the snapshot metadata and
fails fast when any required field is absent (the production Initialize is
not among the checked-in sources; which key is a label and which an
annotation is pinned by the missing-metadata test table).  The merge-request
number is optional: push events carry none. -/
def Initialize (snap : SnapMeta) : Except String GitLabRep :=
  match lookupMeta snap.annots repoUrlKey with
  | none => .error "failed to get repo url"
  | some url =>
    match lookupMeta snap.labels shaKey with
    | none => .error "failed to get sha"
    | some sh =>
      match lookupMeta snap.annots targetProjectIdKey with
      | none => .error "failed to get target project id"
      | some tp =>
        match lookupMeta snap.annots sourceProjectIdKey with
        | none => .error "failed to get source project id"
        | some sp =>
          .ok { repoUrl := url, sha := sh, targetProjectID := tp,
                sourceProjectID := sp,
                mergeRequest := lookupMeta snap.annots pullRequestKey }

/-- An existing commit status listed from the GitLab API. -/
structure CommitStatus where
  id : Nat
  name : String
  status : String
  description : String
deriving Repr, DecidableEq

/-- An existing merge-request note listed from the GitLab API. -/
structure GLNote where
  id : Nat
  body : String
deriving Repr, DecidableEq

/-- The per-report payload handed to a reporter. -/
structure TestReport where
  fullName : String
  scenarioName : String
  snapshotName : String
  status : ITStatus
  summary : String
  text : String
  testPipelineRunName : String
deriving Repr, DecidableEq

/-- Modelled from the spec: find an existing commit status whose name equals
the report's full name (the production GetExistingCommitStatus is not among
the checked-in sources). -/
def GetExistingCommitStatus (statuses : List CommitStatus) (fullName : String) :
    Option CommitStatus :=
  statuses.find? (fun cs => cs.name == fullName)

/-- The fixed comment template: summary and detailed text. -/
def FormatComment (summary text : String) : String :=
  summary ++ "\n\n" ++ text

/-- The canonical comment signature keyed by scenario name and snapshot
name. -/
def noteSignature (scenario snapName : String) : String :=
  "snapshot " ++ snapName ++ " and scenario " ++ scenario

/-- Whether the pattern occurs as a contiguous run of the list. -/
def containsSub (pat : List Char) : List Char → Bool
  | [] => pat.isEmpty
  | x :: xs => pat.isPrefixOf (x :: xs) || containsSub pat xs

def bodyHasSignature (body scenario snapName : String) : Bool :=
  containsSub (noteSignature scenario snapName).toList body.toList

/-- Modelled from the spec: find an existing note whose body matches the
canonical comment signature keyed by scenario name and snapshot name (the
production GetExistingNoteID is not among the checked-in sources). -/
def GetExistingNoteID (notes : List GLNote) (scenario snapName : String) :
    Option Nat :=
  (notes.find? (fun n => bodyHasSignature n.body scenario snapName)).map (fun n => n.id)

/-- A commit-status creation request POSTed to the GitLab API. -/
structure CommitStatusPost where
  name : String
  state : String
  description : String
deriving Repr, DecidableEq

def mkCommitStatusPost (report : TestReport) (gl : GLState) : CommitStatusPost :=
  { name := report.fullName, state := glStateStr gl, description := report.summary }

/-- Everything externally observable about one ReportStatus invocation: the
commit statuses POSTed, the comments POSTed, whether the existing statuses
and notes were listed, the log lines, and whether the call returned
success. -/
structure ReportOutcome where
  statusPosts : List CommitStatusPost
  commentPosts : List String
  listedStatuses : Bool
  listedNotes : Bool
  logs : List String
  ok : Bool
deriving Repr, DecidableEq

def forkedRepoLogMsg : String :=
  "Won't create/update commitStatus due to the access limitation for forked repo"

def skipCommitStatusLogMsg : String :=
  "Skipping the commit status update because it is already set"

/-- The non-terminal GitLab states for which an existing identical commit
status suppresses a redundant POST. -/
def isNonTerminal : GLState → Bool
  | .running => true
  | .pending => true
  | _ => false

/-- The report statuses for which the comment step does not run yet. -/
def isPendingOrInProgress : ITStatus → Bool
  | .Pending => true
  | .InProgress => true
  | _ => false

/-- Modelled from the spec: ReportStatus as an idempotent upsert (the
production ReportStatus is not among the checked-in sources).  Commit-status
step: skipped entirely with a log line when the source project differs from
the target project (forked repository); otherwise, for a non-terminal mapped
state (running or pending) the existing statuses are listed and the POST is
skipped when one with the report's full name already carries the target
state; terminal states POST directly.  Comment step: only for merge-request
events (a merge-request number is present) and only once the report is
neither pending nor in progress; an existing note matching the canonical
signature suppresses a second POST.  The existing statuses and notes stand in
for the GitLab API responses. -/
def ReportStatus (r : GitLabRep) (report : TestReport)
    (statuses : List CommitStatus) (notes : List GLNote) : ReportOutcome :=
  match GenerateGitlabCommitState report.status with
  | .error e =>
      { statusPosts := [], commentPosts := [], listedStatuses := false,
        listedNotes := false, logs := [e], ok := false }
  | .ok gl =>
      let forked : Bool := !(r.sourceProjectID == r.targetProjectID)
      let skip : Bool := isNonTerminal gl &&
        (match GetExistingCommitStatus statuses report.fullName with
         | some cs => cs.status == glStateStr gl
         | none => false)
      let statusPosts := if forked then [] else
        if skip then [] else [mkCommitStatusPost report gl]
      let logs := if forked then [forkedRepoLogMsg] else
        if skip then [skipCommitStatusLogMsg] else []
      let commentWanted : Bool := r.mergeRequest.isSome
        && !(isPendingOrInProgress report.status)
      let commentPosts := if commentWanted then
          (match GetExistingNoteID notes report.scenarioName report.snapshotName with
           | some _ => []
           | none => [FormatComment report.summary report.text])
        else []
      { statusPosts := statusPosts, commentPosts := commentPosts,
        listedStatuses := (!forked) && isNonTerminal gl,
        listedNotes := commentWanted, logs := logs, ok := true }

/-! ## Snapshot derivation -/

/-- A build PipelineRun as observed by the adapter: metadata, the Tekton
results map, the single Succeeded condition (its status string, or none when
no condition was reported yet), whether a deletion timestamp is set, and its
finalizers. -/
structure PipelineRun where
  name : String
  labels : MetaMap
  annots : MetaMap
  results : MetaMap
  condStatus : Option String
  deleting : Bool
  finalizers : List String
deriving Repr, DecidableEq

def HasPipelineRunFinished (p : PipelineRun) : Bool :=
  p.condStatus == some "True" || p.condStatus == some "False"

def HasPipelineRunSucceeded (p : PipelineRun) : Bool :=
  p.condStatus == some "True"

/-- An Application component, reduced to the fields snapshot derivation
reads. -/
structure Component where
  name : String
  containerImage : String
deriving Repr, DecidableEq

structure SnapshotComponent where
  name : String
  containerImage : String
deriving Repr, DecidableEq

/-- A Snapshot, reduced to the fields the adapter reads: the creation time
orders racing duplicates. -/
structure Snapshot where
  name : String
  creationTime : Nat
  labels : MetaMap
  annots : MetaMap
  components : List SnapshotComponent
deriving Repr, DecidableEq

/-- Errors of snapshot derivation: a missing build result, or a syntactically
invalid image digest, the latter carrying the component name and the
offending image reference. -/
inductive SnapshotError where
  | missingInfo (key plrName : String)
  | invalidImageDigest (componentName imageRef : String)
deriving Repr, DecidableEq

/-- The error text of each derivation error.  The missing-result text is
pinned verbatim by the adapter tests; the invalid-digest text names the
component and the offending image reference as the spec requires. -/
def snapshotErrMsg : SnapshotError → String
  | .missingInfo k plr => "Missing info " ++ k ++ " from pipelinerun " ++ plr
  | .invalidImageDigest comp ref =>
      "image digest of image " ++ ref ++ " for component " ++ comp ++ " is invalid"

def isHexChar (c : Char) : Bool :=
  c.isDigit || (('a' ≤ c) && (c ≤ 'f'))

/-- Split a character list at every occurrence of the separator. -/
def splitOnCharAux (c : Char) : List Char → List Char → List (List Char)
  | [], acc => [acc.reverse]
  | x :: xs, acc =>
      if x = c then acc.reverse :: splitOnCharAux c xs []
      else splitOnCharAux c xs (x :: acc)

def splitOnChar (c : Char) (l : List Char) : List (List Char) :=
  splitOnCharAux c l []

/-- Modelled from the spec: a digest is syntactically well-formed when it has
the form algorithm:hex with a nonempty algorithm and a nonempty hexadecimal
part (the production digest validation is not among the checked-in
sources). -/
def validDigest (d : String) : Bool :=
  match splitOnChar ':' d.toList with
  | [alg, hex] => (!alg.isEmpty) && (!hex.isEmpty) && hex.all isHexChar
  | _ => false

/-- A deployed component image qualifies for reuse only when it carries a
valid digest after the at sign. -/
def imageHasValidDigest (img : String) : Bool :=
  match splitOnChar '@' img.toList with
  | [_, d] => validDigest (String.mk d)
  | _ => false

/-! Key prefixes of the label/annotation allow-list, and the pipelines-as-code
key translation, as pinned by the adapter tests. -/

def pacSourceKeyBase : String := "pipelinesascode.tekton.dev"
def pacSnapshotKeyBase : String := "pac.test.appstudio.openshift.io"
def customKeyBase : String := "custom.appstudio.openshift.io"
def buildKeyBase : String := "build.appstudio"

/-- Whether the key starts with the given key base. -/
def strHasKeyBase (base k : String) : Bool :=
  base.toList.isPrefixOf k.toList

/-- Modelled from the spec: the hard allow-list of key prefixes copied from
the build PipelineRun to the Snapshot (pipelines-as-code, the custom-label
prefix, and the build.appstudio prefix); anything else is dropped. -/
def allowKey (k : String) : Bool :=
  strHasKeyBase pacSourceKeyBase k
    || strHasKeyBase customKeyBase k
    || strHasKeyBase buildKeyBase k

/-- Pipelines-as-code keys are translated onto the snapshot's own
pipelines-as-code key base; all other allowed keys are copied verbatim. -/
def renameKey (k : String) : String :=
  if strHasKeyBase pacSourceKeyBase k
  then pacSnapshotKeyBase ++ String.mk (k.toList.drop pacSourceKeyBase.toList.length)
  else k

/-- Modelled from the spec: the selective copy of build PipelineRun metadata
onto the derived Snapshot, a prefix allow-list filter followed by the
pipelines-as-code key translation. -/
def copyAllowed (m : MetaMap) : MetaMap :=
  m.filterMap (fun kv => if allowKey kv.1 then some (renameKey kv.1, kv.2) else none)

def snapshotTypeKey : String := "test.appstudio.openshift.io/type"
def snapshotComponentKey : String := "appstudio.openshift.io/component"
def buildPlrNameKey : String := "appstudio.openshift.io/build-pipelinerun"
def appNameKey : String := "appstudio.openshift.io/application"
def buildStartTimeKey : String := "test.appstudio.openshift.io/pipelinerunstarttime"

/-- Modelled from the spec: snapshot derivation from a completed build
PipelineRun (the production prepareSnapshotForPipelineRun is not among the
checked-in sources).  A missing IMAGE_URL, IMAGE_DIGEST or source result is a
descriptive missing-info error; an ill-formed digest is an invalid-digest
error naming the component and the composed image reference; otherwise the
full image reference is imageURL at digest, every other component of the
Application is reused only when its deployed image carries a valid digest,
and the PipelineRun metadata is copied through the prefix allow-list. -/
def prepareSnapshotForPipelineRun (plr : PipelineRun) (comp : Component)
    (appName : String) (appComponents : List Component) :
    Except SnapshotError Snapshot :=
  match lookupMeta plr.results "IMAGE_URL" with
  | none => .error (.missingInfo "IMAGE_URL" plr.name)
  | some url =>
    match lookupMeta plr.results "IMAGE_DIGEST" with
    | none => .error (.missingInfo "IMAGE_DIGEST" plr.name)
    | some dg =>
      match lookupMeta plr.results "CHAINS-GIT_URL" with
      | none => .error (.missingInfo "CHAINS-GIT_URL" plr.name)
      | some _ =>
        match lookupMeta plr.results "CHAINS-GIT_COMMIT" with
        | none => .error (.missingInfo "CHAINS-GIT_COMMIT" plr.name)
        | some _ =>
          let imageRef := url ++ "@" ++ dg
          if validDigest dg then
            let others := (appComponents.filter (fun c => !(c.name == comp.name))).filterMap
              (fun c => if imageHasValidDigest c.containerImage
                then some { name := c.name, containerImage := c.containerImage }
                else none)
            .ok {
              name := plr.name ++ "-snapshot",
              creationTime := 0,
              labels := [(snapshotTypeKey, "component"),
                         (snapshotComponentKey, comp.name),
                         (buildPlrNameKey, plr.name),
                         (appNameKey, appName)] ++ copyAllowed plr.labels,
              annots := [(buildStartTimeKey, "0")] ++ copyAllowed plr.annots,
              components := { name := comp.name, containerImage := imageRef } :: others }
          else .error (.invalidImageDigest comp.name imageRef)

/-! ## Build-PipelineRun adapter: EnsureSnapshotExists -/

/-- Classified object-store errors. -/
inductive KErr where
  | notFound
  | conflict
  | other (msg : String)
deriving Repr, DecidableEq

def kerrMsg : KErr → String
  | .notFound => "Resource Not Found"
  | .conflict => "Operation cannot be fulfilled"
  | .other m => m

instance instDecEqExcept {ε α : Type} [DecidableEq ε] [DecidableEq α] :
    DecidableEq (Except ε α) := fun x y =>
  match x, y with
  | .ok a, .ok b =>
      if h : a = b then .isTrue (by rw [h])
      else .isFalse (by intro hc; cases hc; exact h rfl)
  | .ok _, .error _ => .isFalse (by intro hc; cases hc)
  | .error _, .ok _ => .isFalse (by intro hc; cases hc)
  | .error e, .error f =>
      if h : e = f then .isTrue (by rw [h])
      else .isFalse (by intro hc; cases hc; exact h rfl)

/-- The loader context handed to one EnsureSnapshotExists pass: the result of
resolving the Snapshot named by the PipelineRun's annotation, and the result
of listing all Snapshots back-referencing the PipelineRun. -/
structure LoaderCtx where
  resolvedSnapshot : Except KErr Snapshot
  snapshotsForPLR : Except KErr (List Snapshot)
deriving Repr, DecidableEq

/-- The reconciliation outcome kinds: continue the pass, stop it (cancel), or
requeue. -/
structure OperationResult where
  cancelRequest : Bool
  requeueRequest : Bool
deriving Repr, DecidableEq

def continueResult : OperationResult := { cancelRequest := false, requeueRequest := false }
def stopResult : OperationResult := { cancelRequest := true, requeueRequest := false }
def requeueResult : OperationResult := { cancelRequest := false, requeueRequest := true }

/-- The structured failure record written to the create-snapshot annotation:
a status and a human message. -/
structure CreateSnapshotInfo where
  status : String
  message : String
deriving Repr, DecidableEq

/-- The structured failure record written for a derivation error. -/
def mkFailureInfo (e : SnapshotError) : CreateSnapshotInfo :=
  { status := "failed",
    message := "Failed to create snapshot. Error: " ++ snapshotErrMsg e }

/-- Everything externally observable about one EnsureSnapshotExists pass. -/
structure EnsureOutcome where
  res : OperationResult
  errMsg : Option String
  created : List Snapshot
  addedAnnots : MetaMap
  failureRecord : Option CreateSnapshotInfo
  finalizerRemoved : Bool
  logs : List String
deriving Repr, DecidableEq

def snapshotNameKey : String := "appstudio.openshift.io/snapshot"
def chainsSignedKey : String := "chains.tekton.dev/signed"

def annotatedLogMsg : String :=
  "The build pipelineRun is already associated with existing Snapshot via annotation"
def multiSnapshotLogMsg : String :=
  "The build pipelineRun is already associated with more than one existing Snapshot"
def oneSnapshotLogMsg : String :=
  "There is an existing Snapshot associated with this build pipelineRun, but the pipelineRun is not yet annotated"
def updatedPlrLogMsg : String := "Updated build pipelineRun"
def createdSnapshotLogMsg : String := "Created new Snapshot"
def chainsUnsignedLogMsg : String :=
  "Not processing the pipelineRun because it's not yet signed with Chains"

def earlierOf (a b : Snapshot) : Snapshot :=
  if b.creationTime < a.creationTime then b else a

/-- The deterministic tie-break over racing duplicate Snapshots: the
earliest-created one, the first listed among equals. -/
def earliestSnapshot (s : Snapshot) (rest : List Snapshot) : Snapshot :=
  rest.foldl earlierOf s

/-- Modelled from the spec: the EnsureSnapshotExists idempotency gate of
section 4.4 (the production adapter is not among the checked-in sources),
with every return value and log line pinned by the adapter tests.  In
particular, on a PipelineRun already annotated with a resolvable Snapshot the
pass continues processing with the finalizer removed, the tests pinning a
false CancelRequest where the spec's scenario wording says the pass is
cancelled; a stale annotation stops the pass without error; a transient
resolution error requeues; more than one back-referenced Snapshot is resolved
to the earliest-created without creating another; a derivation failure on a
succeeded PipelineRun writes the structured failure record and cancels the
pass without error. -/
def EnsureSnapshotExists (plr : PipelineRun) (comp : Component)
    (appName : String) (appComponents : List Component) (ld : LoaderCtx) :
    EnsureOutcome :=
  if (lookupMeta plr.annots snapshotNameKey).isSome then
    match ld.resolvedSnapshot with
    | .ok _ =>
        { res := continueResult, errMsg := none, created := [], addedAnnots := [],
          failureRecord := none, finalizerRemoved := true, logs := [annotatedLogMsg] }
    | .error .notFound =>
        { res := stopResult, errMsg := none, created := [], addedAnnots := [],
          failureRecord := none, finalizerRemoved := false, logs := [annotatedLogMsg] }
    | .error e =>
        { res := requeueResult, errMsg := some (kerrMsg e), created := [],
          addedAnnots := [], failureRecord := none, finalizerRemoved := false,
          logs := [annotatedLogMsg, kerrMsg e] }
  else if !(HasPipelineRunFinished plr) then
    if plr.deleting then
      { res := continueResult, errMsg := none, created := [], addedAnnots := [],
        failureRecord := none, finalizerRemoved := true, logs := [] }
    else
      { res := continueResult, errMsg := none, created := [], addedAnnots := [],
        failureRecord := none, finalizerRemoved := false, logs := [] }
  else if HasPipelineRunSucceeded plr
      && !(lookupMeta plr.annots chainsSignedKey == some "true") then
    { res := requeueResult, errMsg := some chainsUnsignedLogMsg, created := [],
      addedAnnots := [], failureRecord := none, finalizerRemoved := false,
      logs := [chainsUnsignedLogMsg] }
  else
    match ld.snapshotsForPLR with
    | .error e =>
        { res := requeueResult, errMsg := some (kerrMsg e), created := [],
          addedAnnots := [], failureRecord := none, finalizerRemoved := false,
          logs := [kerrMsg e] }
    | .ok [] =>
        if HasPipelineRunSucceeded plr then
          match prepareSnapshotForPipelineRun plr comp appName appComponents with
          | .error e =>
              { res := stopResult, errMsg := none, created := [], addedAnnots := [],
                failureRecord := some (mkFailureInfo e),
                finalizerRemoved := false, logs := [] }
          | .ok snap =>
              { res := stopResult, errMsg := none, created := [snap],
                addedAnnots := [(snapshotNameKey, snap.name)], failureRecord := none,
                finalizerRemoved := true, logs := [createdSnapshotLogMsg] }
        else
          { res := continueResult, errMsg := none, created := [], addedAnnots := [],
            failureRecord := none, finalizerRemoved := false, logs := [] }
    | .ok (s :: rest) =>
        if rest.isEmpty then
          { res := continueResult, errMsg := none, created := [],
            addedAnnots := [(snapshotNameKey, s.name)], failureRecord := none,
            finalizerRemoved := true, logs := [oneSnapshotLogMsg, updatedPlrLogMsg] }
        else
          { res := continueResult, errMsg := none, created := [],
            addedAnnots := [(snapshotNameKey, (earliestSnapshot s rest).name)],
            failureRecord := none, finalizerRemoved := true,
            logs := [multiSnapshotLogMsg, updatedPlrLogMsg] }

/-! ## Shared lemmas and concrete fixtures -/

theorem generateGitlabCommitState_exists (s : ITStatus) :
    ∃ g, GenerateGitlabCommitState s = Except.ok g := by
  cases s <;> exact ⟨_, rfl⟩

theorem earliestSnapshot_cons (s b : Snapshot) (l : List Snapshot) :
    earliestSnapshot s (b :: l) = earliestSnapshot (earlierOf s b) l := rfl

theorem earlierOf_le_left (a b : Snapshot) :
    (earlierOf a b).creationTime ≤ a.creationTime := by
  unfold earlierOf; split <;> omega

theorem earlierOf_le_right (a b : Snapshot) :
    (earlierOf a b).creationTime ≤ b.creationTime := by
  unfold earlierOf; split <;> omega

theorem earliestSnapshot_mem (s : Snapshot) (l : List Snapshot) :
    earliestSnapshot s l ∈ s :: l := by
  induction l generalizing s with
  | nil => simp [earliestSnapshot]
  | cons b l ih =>
    rw [earliestSnapshot_cons]
    rcases List.mem_cons.mp (ih (earlierOf s b)) with h | h
    · rw [h]
      unfold earlierOf
      split
      · exact List.mem_cons_of_mem _ (List.mem_cons_self _ _)
      · exact List.mem_cons_self _ _
    · exact List.mem_cons_of_mem _ (List.mem_cons_of_mem _ h)

theorem earliestSnapshot_le_start (s : Snapshot) (l : List Snapshot) :
    (earliestSnapshot s l).creationTime ≤ s.creationTime := by
  induction l generalizing s with
  | nil => simp [earliestSnapshot]
  | cons b l ih =>
    rw [earliestSnapshot_cons]
    exact le_trans (ih (earlierOf s b)) (earlierOf_le_left s b)

theorem earliestSnapshot_le (s : Snapshot) (l : List Snapshot) :
    ∀ t ∈ s :: l, (earliestSnapshot s l).creationTime ≤ t.creationTime := by
  induction l generalizing s with
  | nil =>
    intro t ht
    rcases List.mem_cons.mp ht with h | h
    · rw [h]; simp [earliestSnapshot]
    · exact absurd h (List.not_mem_nil t)
  | cons b l ih =>
    intro t ht
    rw [earliestSnapshot_cons]
    rcases List.mem_cons.mp ht with h | h
    · rw [h]
      exact le_trans (earliestSnapshot_le_start (earlierOf s b) l) (earlierOf_le_left s b)
    · rcases List.mem_cons.mp h with h2 | h2
      · rw [h2]
        exact le_trans (earliestSnapshot_le_start (earlierOf s b) l) (earlierOf_le_right s b)
      · exact ih (earlierOf s b) t (List.mem_cons_of_mem _ h2)

/-- Remove every entry with the given key: models deleting a label or an
annotation from a fixture. -/
def dropKey (m : MetaMap) (k : String) : MetaMap :=
  m.filter (fun kv => !(kv.1 == k))

def dropAnnot (s : SnapMeta) (k : String) : SnapMeta :=
  { s with annots := dropKey s.annots k }

def dropLabel (s : SnapMeta) (k : String) : SnapMeta :=
  { s with labels := dropKey s.labels k }

/-- The Snapshot metadata fixture of the GitLab reporter tests. -/
def gitlabSnapMeta : SnapMeta :=
  { labels := [(snapshotTypeKey, "component"),
               (snapshotComponentKey, "component-sample"),
               (shaKey, "12a4a35ccd08194595179815e4646c3a6c08bb77")],
    annots := [(gitProviderKey, "gitlab"),
               (repoUrlKey, "https://gitlab.com/example/example"),
               (targetProjectIdKey, "456"),
               (sourceProjectIdKey, "123"),
               (pullRequestKey, "45")] }

/-! ## Claim theorems -/

/-- C4: the Status-Kind to GitLab mapping is total and exact: every declared
IntegrationTestStatus value maps with no error, and the tabulated values map
exactly as claimed: the four test-failure kinds to Failed, TestPassed to
Success, InProgress to Running, Pending and BuildPLRInProgress to Pending,
and the four abandoned kinds to Canceled. -/
theorem C4_gitlab_mapping_total_and_exact :
    (∀ s : ITStatus, exceptIsOk (GenerateGitlabCommitState s) = true)
    ∧ GenerateGitlabCommitState .EnvironmentProvisionError = .ok .failed
    ∧ GenerateGitlabCommitState .DeploymentError = .ok .failed
    ∧ GenerateGitlabCommitState .TestFail = .ok .failed
    ∧ GenerateGitlabCommitState .TestInvalid = .ok .failed
    ∧ GenerateGitlabCommitState .TestPassed = .ok .success
    ∧ GenerateGitlabCommitState .InProgress = .ok .running
    ∧ GenerateGitlabCommitState .Pending = .ok .pending
    ∧ GenerateGitlabCommitState .BuildPLRInProgress = .ok .pending
    ∧ GenerateGitlabCommitState .Deleted = .ok .canceled
    ∧ GenerateGitlabCommitState .BuildPLRFailed = .ok .canceled
    ∧ GenerateGitlabCommitState .SnapshotCreationFailed = .ok .canceled
    ∧ GenerateGitlabCommitState .GroupSnapshotCreationFailed = .ok .canceled :=
  ⟨generateGitlabCommitState_total, rfl, rfl, rfl, rfl, rfl, rfl, rfl, rfl,
   rfl, rfl, rfl, rfl⟩

/-- C10: Detect consults the git-provider key in both the Snapshot's labels
and its annotations, returning true exactly when either location holds the
string gitlab; in particular a snapshot whose annotation says not-gitlab but
whose label says gitlab is still detected, neither location saying gitlab is
not, and the match is case-sensitive exact equality. -/
theorem C10_detect_consults_labels_and_annots :
    (∀ snap : SnapMeta, Detect snap = true ↔
      (lookupMeta snap.labels gitProviderKey = some "gitlab"
        ∨ lookupMeta snap.annots gitProviderKey = some "gitlab"))
    ∧ Detect { labels := [], annots := [(gitProviderKey, "gitlab")] } = true
    ∧ Detect { labels := [], annots := [(gitProviderKey, "not-gitlab")] } = false
    ∧ Detect { labels := [(gitProviderKey, "gitlab")],
               annots := [(gitProviderKey, "not-gitlab")] } = true
    ∧ Detect { labels := [(gitProviderKey, "not-gitlab")],
               annots := [(gitProviderKey, "not-gitlab")] } = false
    ∧ Detect { labels := [], annots := [(gitProviderKey, "Gitlab")] } = false := by
  refine ⟨?_, by decide, by decide, by decide, by decide, by decide⟩
  intro snap
  simp [Detect]

/-- C8: Initialize fails fast on incomplete provenance: it succeeds exactly
when the repository-URL annotation, the commit-SHA label, the
target-project-id annotation and the source-project-id annotation are all
present; on the test fixture, deleting any one of the four turns success into
an error. -/
theorem C8_initialize_fails_fast :
    (∀ snap : SnapMeta, exceptIsOk (Initialize snap) =
      ((lookupMeta snap.annots repoUrlKey).isSome
        && (lookupMeta snap.labels shaKey).isSome
        && (lookupMeta snap.annots targetProjectIdKey).isSome
        && (lookupMeta snap.annots sourceProjectIdKey).isSome))
    ∧ exceptIsOk (Initialize gitlabSnapMeta) = true
    ∧ exceptIsOk (Initialize (dropAnnot gitlabSnapMeta repoUrlKey)) = false
    ∧ exceptIsOk (Initialize (dropLabel gitlabSnapMeta shaKey)) = false
    ∧ exceptIsOk (Initialize (dropAnnot gitlabSnapMeta targetProjectIdKey)) = false
    ∧ exceptIsOk (Initialize (dropAnnot gitlabSnapMeta sourceProjectIdKey)) = false := by
  refine ⟨?_, by decide, by decide, by decide, by decide, by decide⟩
  intro snap
  rcases h1 : lookupMeta snap.annots repoUrlKey with _ | u <;>
    rcases h2 : lookupMeta snap.labels shaKey with _ | sh <;>
      rcases h3 : lookupMeta snap.annots targetProjectIdKey with _ | tp <;>
        rcases h4 : lookupMeta snap.annots sourceProjectIdKey with _ | sp <;>
          simp [Initialize, h1, h2, h3, h4, exceptIsOk]

theorem initialize_mergeRequest (snap : SnapMeta) (r : GitLabRep)
    (h : Initialize snap = .ok r) :
    r.mergeRequest = lookupMeta snap.annots pullRequestKey := by
  rcases h1 : lookupMeta snap.annots repoUrlKey with _ | u <;>
    rcases h2 : lookupMeta snap.labels shaKey with _ | sh <;>
      rcases h3 : lookupMeta snap.annots targetProjectIdKey with _ | tp <;>
        rcases h4 : lookupMeta snap.annots sourceProjectIdKey with _ | sp <;>
          simp [Initialize, h1, h2, h3, h4] at h <;> simp [← h]

/-- C6: for a GitLab reporter initialized from a Snapshot whose source
project ID differs from its target project ID, ReportStatus POSTs no commit
status, logs the access-limitation message, and returns success rather than
an error. -/
theorem C6_forked_repo_skip (snap : SnapMeta) (r : GitLabRep)
    (report : TestReport) (statuses : List CommitStatus) (notes : List GLNote)
    (hinit : Initialize snap = .ok r)
    (hfork : r.sourceProjectID ≠ r.targetProjectID) :
    (ReportStatus r report statuses notes).statusPosts = []
    ∧ forkedRepoLogMsg ∈ (ReportStatus r report statuses notes).logs
    ∧ (ReportStatus r report statuses notes).ok = true := by
  rcases generateGitlabCommitState_exists report.status with ⟨g, hg⟩
  have hfb : (r.sourceProjectID == r.targetProjectID) = false := by
    simp [hfork]
  refine ⟨?_, ?_, ?_⟩ <;> simp [ReportStatus, hg, hfb]

/-- The reporter state Initialize extracts from the forked-repository test
fixture: source project 0 differs from target project 456. -/
def forkedSnapMeta : SnapMeta :=
  { labels := gitlabSnapMeta.labels,
    annots := (sourceProjectIdKey, "0") :: gitlabSnapMeta.annots }

def forkedRep : GitLabRep :=
  { repoUrl := "https://gitlab.com/example/example",
    sha := "12a4a35ccd08194595179815e4646c3a6c08bb77",
    targetProjectID := "456", sourceProjectID := "0",
    mergeRequest := some "45" }

/-- The report payload of the reporter tests. -/
def sampleReport : TestReport :=
  { fullName := "fullname/scenario1", scenarioName := "scenario1",
    snapshotName := "snapshot-sample", status := .InProgress,
    summary := "summary", text := "detailed text here",
    testPipelineRunName := "TestPipeline" }

/-- Witness for C6 at the forked-repository fixture. -/
theorem C6_forked_repo_skip_witness :
    (ReportStatus forkedRep sampleReport [] []).statusPosts = []
    ∧ forkedRepoLogMsg ∈ (ReportStatus forkedRep sampleReport [] []).logs
    ∧ (ReportStatus forkedRep sampleReport [] []).ok = true :=
  C6_forked_repo_skip forkedSnapMeta forkedRep sampleReport [] []
    (by decide) (by decide)

/-- C7: ReportStatus is an idempotent upsert: when the listed commit statuses
already contain one named by the report's full name in the non-terminal
running state and the report is in progress, no commit status and no comment
is POSTed and the call returns success. -/
theorem C7_inprogress_upsert_noop (r : GitLabRep) (report : TestReport)
    (statuses : List CommitStatus) (notes : List GLNote) (cs : CommitStatus)
    (hsame : r.sourceProjectID = r.targetProjectID)
    (hstat : report.status = ITStatus.InProgress)
    (hfound : GetExistingCommitStatus statuses report.fullName = some cs)
    (hrun : cs.status = "running") :
    (ReportStatus r report statuses notes).statusPosts = []
    ∧ (ReportStatus r report statuses notes).commentPosts = []
    ∧ (ReportStatus r report statuses notes).ok = true := by
  refine ⟨?_, ?_, ?_⟩ <;>
    simp [ReportStatus, hstat, hfound, hrun, hsame, glStateStr,
      GenerateGitlabCommitState, isNonTerminal, isPendingOrInProgress]

def sameProjectRep : GitLabRep :=
  { repoUrl := "https://gitlab.com/example/example",
    sha := "12a4a35ccd08194595179815e4646c3a6c08bb77",
    targetProjectID := "456", sourceProjectID := "456",
    mergeRequest := some "45" }

def runningCommitStatus : CommitStatus :=
  { id := 123, name := "fullname/scenario1", status := "running",
    description := "summary" }

/-- Witness for C7 at the existing-running-status fixture. -/
theorem C7_inprogress_upsert_noop_witness :
    (ReportStatus sameProjectRep sampleReport [runningCommitStatus] []).statusPosts = []
    ∧ (ReportStatus sameProjectRep sampleReport [runningCommitStatus] []).commentPosts = []
    ∧ (ReportStatus sameProjectRep sampleReport [runningCommitStatus] []).ok = true :=
  C7_inprogress_upsert_noop sameProjectRep sampleReport [runningCommitStatus] []
    runningCommitStatus rfl rfl (by decide) rfl

/-- C9: for a Snapshot triggered by a push event (no pull-request
annotation), a fresh ReportStatus POSTs exactly the commit status, never
lists or POSTs merge-request comments, and returns success. -/
theorem C9_push_skips_comments (snap : SnapMeta) (r : GitLabRep)
    (report : TestReport) (statuses : List CommitStatus) (notes : List GLNote)
    (hinit : Initialize snap = .ok r)
    (hnopr : lookupMeta snap.annots pullRequestKey = none)
    (hsame : r.sourceProjectID = r.targetProjectID)
    (hfresh : GetExistingCommitStatus statuses report.fullName = none) :
    (∃ g, GenerateGitlabCommitState report.status = .ok g
      ∧ (ReportStatus r report statuses notes).statusPosts
          = [mkCommitStatusPost report g])
    ∧ (ReportStatus r report statuses notes).commentPosts = []
    ∧ (ReportStatus r report statuses notes).listedNotes = false
    ∧ (ReportStatus r report statuses notes).ok = true := by
  have hmr : r.mergeRequest = none := by
    rw [initialize_mergeRequest snap r hinit, hnopr]
  rcases generateGitlabCommitState_exists report.status with ⟨g, hg⟩
  refine ⟨⟨g, hg, ?_⟩, ?_, ?_, ?_⟩ <;>
    simp [ReportStatus, hg, hsame, hfresh, hmr]

/-- The push-event snapshot fixture: the pull-request annotation removed and
the source project equal to the target project. -/
def pushSameSnapMeta : SnapMeta :=
  { labels := gitlabSnapMeta.labels,
    annots := [(gitProviderKey, "gitlab"),
               (repoUrlKey, "https://gitlab.com/example/example"),
               (targetProjectIdKey, "456"),
               (sourceProjectIdKey, "456")] }

def pushSameRep : GitLabRep :=
  { repoUrl := "https://gitlab.com/example/example",
    sha := "12a4a35ccd08194595179815e4646c3a6c08bb77",
    targetProjectID := "456", sourceProjectID := "456",
    mergeRequest := none }

/-- Witness for C9 at the push-event fixture with matching project IDs. -/
theorem C9_push_skips_comments_witness :
    (∃ g, GenerateGitlabCommitState sampleReport.status = .ok g
      ∧ (ReportStatus pushSameRep sampleReport [] []).statusPosts
          = [mkCommitStatusPost sampleReport g])
    ∧ (ReportStatus pushSameRep sampleReport [] []).commentPosts = []
    ∧ (ReportStatus pushSameRep sampleReport [] []).listedNotes = false
    ∧ (ReportStatus pushSameRep sampleReport [] []).ok = true :=
  C9_push_skips_comments pushSameSnapMeta pushSameRep sampleReport [] []
    (by decide) (by decide) rfl rfl

/-! ## C5: the metadata allow-list -/

/-- The labels of a derivation result (empty on error). -/
def prepLabels (r : Except SnapshotError Snapshot) : MetaMap :=
  match r with
  | .ok s => s.labels
  | .error _ => []

/-- The annotations of a derivation result (empty on error). -/
def prepAnnots (r : Except SnapshotError Snapshot) : MetaMap :=
  match r with
  | .ok s => s.annots
  | .error _ => []

def sampleDigest : String :=
  "sha256:841328df1b9f8c4087adbdcfec6cc99ac8308805dea83f6d415d6fb8d40227c1"

def testRepoVal : String :=
  "https://github.com/devfile-samples/devfile-sample-go-basic?rev=c713067b0e65fb3de50d1f7c457eb51c2ab0dbb0"

def testComp : Component :=
  { name := "component-sample", containerImage := "invalidImage" }

/-- The build PipelineRun fixture of the adapter tests, trimmed to the fields
the embedding reads. -/
def testBuildPLR : PipelineRun :=
  { name := "pipelinerun-build-sample",
    labels := [("pipelines.appstudio.openshift.io/type", "build"),
               ("appstudio.openshift.io/component", "component-sample"),
               ("build.appstudio.redhat.com/target_branch", "main"),
               ("pipelinesascode.tekton.dev/event-type", "pull_request"),
               ("custom.appstudio.openshift.io/custom-label", "custom-label")],
    annots := [("appstudio.redhat.com/updateComponentOnSuccess", "false"),
               ("pipelinesascode.tekton.dev/on-target-branch", "[main,master]"),
               ("build.appstudio.openshift.io/repo", testRepoVal),
               ("foo", "bar"),
               (chainsSignedKey, "true")],
    results := [("IMAGE_DIGEST", sampleDigest),
                ("IMAGE_URL", "quay.io/redhat-appstudio/sample-image"),
                ("CHAINS-GIT_URL", "https://github.com/devfile-samples/devfile-sample-java-springboot-basic"),
                ("CHAINS-GIT_COMMIT", "a2ba645d50e471d5f084b")],
    condStatus := some "True",
    deleting := false,
    finalizers := [] }

/-- The snapshot derived from the adapter-test PipelineRun fixture. -/
def testPrep : Except SnapshotError Snapshot :=
  prepareSnapshotForPipelineRun testBuildPLR testComp "application-sample" [testComp]

/-- C5: metadata propagation is a hard prefix allow-list: an allowed key's
entry is always propagated (under the pipelines-as-code key translation) and
every propagated entry stems from an allowed key; on the adapter-test
fixture, the derived snapshot keeps the target-branch label and the repo
annotation while dropping foo, the pipeline-type label, and the
updateComponentOnSuccess annotation. -/
theorem C5_metadata_allow_list :
    (∀ (m : MetaMap) (k v : String), (k, v) ∈ m → allowKey k = true →
        (renameKey k, v) ∈ copyAllowed m)
    ∧ (∀ (m : MetaMap) (k2 v : String), (k2, v) ∈ copyAllowed m →
        ∃ k, (k, v) ∈ m ∧ allowKey k = true ∧ k2 = renameKey k)
    ∧ exceptIsOk testPrep = true
    ∧ lookupMeta (prepLabels testPrep) "build.appstudio.redhat.com/target_branch"
        = some "main"
    ∧ lookupMeta (prepAnnots testPrep) "build.appstudio.openshift.io/repo"
        = some testRepoVal
    ∧ lookupMeta (prepAnnots testPrep) "foo" = none
    ∧ lookupMeta (prepLabels testPrep) "pipelines.appstudio.openshift.io/type" = none
    ∧ lookupMeta (prepAnnots testPrep) "appstudio.redhat.com/updateComponentOnSuccess"
        = none := by
  refine ⟨?_, ?_, by decide, by decide, by decide, by decide, by decide, by decide⟩
  · intro m k v hmem hallow
    unfold copyAllowed
    exact List.mem_filterMap.mpr ⟨(k, v), hmem, by simp [hallow]⟩
  · intro m k2 v hmem
    unfold copyAllowed at hmem
    rcases List.mem_filterMap.mp hmem with ⟨⟨k, v2⟩, hk, he⟩
    by_cases h : allowKey k = true
    · rw [if_pos h] at he
      have h2 := Option.some.inj he
      have hk2 : renameKey k = k2 := congrArg Prod.fst h2
      have hv : v2 = v := congrArg Prod.snd h2
      subst hv
      exact ⟨k, hk, h, hk2.symm⟩
    · rw [if_neg h] at he
      cases he

/-! ## C1, C2, C3: EnsureSnapshotExists -/

/-- C1: a succeeded, signed build PipelineRun already associated with more
than one existing Snapshot by the back-reference label never gets another
Snapshot created: EnsureSnapshotExists annotates the PipelineRun with the
deterministically chosen earliest-created Snapshot, logs the
multiple-snapshots warning, and completes the pass without error. -/
theorem C1_multi_snapshot_dedup (plr : PipelineRun) (comp : Component)
    (appName : String) (comps : List Component) (ld : LoaderCtx)
    (s1 s2 : Snapshot) (rest : List Snapshot)
    (hann : lookupMeta plr.annots snapshotNameKey = none)
    (hsucc : plr.condStatus = some "True")
    (hsigned : lookupMeta plr.annots chainsSignedKey = some "true")
    (hsnaps : ld.snapshotsForPLR = .ok (s1 :: s2 :: rest)) :
    (EnsureSnapshotExists plr comp appName comps ld).created = []
    ∧ (EnsureSnapshotExists plr comp appName comps ld).errMsg = none
    ∧ (EnsureSnapshotExists plr comp appName comps ld).res = continueResult
    ∧ multiSnapshotLogMsg ∈ (EnsureSnapshotExists plr comp appName comps ld).logs
    ∧ (EnsureSnapshotExists plr comp appName comps ld).addedAnnots
        = [(snapshotNameKey, (earliestSnapshot s1 (s2 :: rest)).name)]
    ∧ earliestSnapshot s1 (s2 :: rest) ∈ s1 :: s2 :: rest
    ∧ ∀ t ∈ s1 :: s2 :: rest,
        (earliestSnapshot s1 (s2 :: rest)).creationTime ≤ t.creationTime := by
  refine ⟨?_, ?_, ?_, ?_, ?_, earliestSnapshot_mem s1 (s2 :: rest),
    earliestSnapshot_le s1 (s2 :: rest)⟩ <;>
    simp [EnsureSnapshotExists, hann, hsucc, hsigned, hsnaps,
      HasPipelineRunFinished, HasPipelineRunSucceeded]

def dupSnapA : Snapshot :=
  { name := "snapshot-a", creationTime := 5, labels := [], annots := [],
    components := [] }

def dupSnapB : Snapshot :=
  { name := "snapshot-b", creationTime := 3, labels := [], annots := [],
    components := [] }

def c1Plr : PipelineRun :=
  { name := "pipelinerun-build-sample", labels := [],
    annots := [(chainsSignedKey, "true")], results := [],
    condStatus := some "True", deleting := false, finalizers := [] }

def c1Ld : LoaderCtx :=
  { resolvedSnapshot := .error .notFound,
    snapshotsForPLR := .ok [dupSnapA, dupSnapB] }

/-- Witness for C1: two racing Snapshots, the later-listed one created
earlier. -/
theorem C1_multi_snapshot_dedup_witness :
    (EnsureSnapshotExists c1Plr testComp "application-sample" [] c1Ld).created = []
    ∧ (EnsureSnapshotExists c1Plr testComp "application-sample" [] c1Ld).errMsg = none
    ∧ (EnsureSnapshotExists c1Plr testComp "application-sample" [] c1Ld).res
        = continueResult
    ∧ multiSnapshotLogMsg
        ∈ (EnsureSnapshotExists c1Plr testComp "application-sample" [] c1Ld).logs
    ∧ (EnsureSnapshotExists c1Plr testComp "application-sample" [] c1Ld).addedAnnots
        = [(snapshotNameKey, (earliestSnapshot dupSnapA [dupSnapB]).name)]
    ∧ earliestSnapshot dupSnapA [dupSnapB] ∈ dupSnapA :: dupSnapB :: []
    ∧ ∀ t ∈ dupSnapA :: dupSnapB :: ([] : List Snapshot),
        (earliestSnapshot dupSnapA [dupSnapB]).creationTime ≤ t.creationTime :=
  C1_multi_snapshot_dedup c1Plr testComp "application-sample" [] c1Ld
    dupSnapA dupSnapB [] (by decide) rfl (by decide) rfl

/-- C2: a succeeded build PipelineRun with a malformed IMAGE_DIGEST result
produces an InvalidImageDigestError naming the component and the composed
image reference and no Snapshot; EnsureSnapshotExists writes the structured
failure record with status failed and a message containing the error text,
and returns CancelRequest true with no error. -/
theorem C2_invalid_digest_cancel (plr : PipelineRun) (comp : Component)
    (appName : String) (comps : List Component) (ld : LoaderCtx)
    (u dg gu gc : String)
    (hann : lookupMeta plr.annots snapshotNameKey = none)
    (hsucc : plr.condStatus = some "True")
    (hsigned : lookupMeta plr.annots chainsSignedKey = some "true")
    (hsnaps : ld.snapshotsForPLR = .ok [])
    (hurl : lookupMeta plr.results "IMAGE_URL" = some u)
    (hdg : lookupMeta plr.results "IMAGE_DIGEST" = some dg)
    (hgu : lookupMeta plr.results "CHAINS-GIT_URL" = some gu)
    (hgc : lookupMeta plr.results "CHAINS-GIT_COMMIT" = some gc)
    (hbad : validDigest dg = false) :
    prepareSnapshotForPipelineRun plr comp appName comps
      = .error (.invalidImageDigest comp.name (u ++ "@" ++ dg))
    ∧ (EnsureSnapshotExists plr comp appName comps ld).res = stopResult
    ∧ (EnsureSnapshotExists plr comp appName comps ld).errMsg = none
    ∧ (EnsureSnapshotExists plr comp appName comps ld).created = []
    ∧ (EnsureSnapshotExists plr comp appName comps ld).failureRecord
        = some (mkFailureInfo (.invalidImageDigest comp.name (u ++ "@" ++ dg)))
    ∧ (mkFailureInfo (.invalidImageDigest comp.name (u ++ "@" ++ dg))).status
        = "failed"
    ∧ ∃ pre, (mkFailureInfo (.invalidImageDigest comp.name (u ++ "@" ++ dg))).message
        = pre ++ snapshotErrMsg (.invalidImageDigest comp.name (u ++ "@" ++ dg)) := by
  have hprep : prepareSnapshotForPipelineRun plr comp appName comps
      = .error (.invalidImageDigest comp.name (u ++ "@" ++ dg)) := by
    simp [prepareSnapshotForPipelineRun, hurl, hdg, hgu, hgc, hbad]
  refine ⟨hprep, ?_, ?_, ?_, ?_, rfl, ⟨"Failed to create snapshot. Error: ", rfl⟩⟩ <;>
    simp [EnsureSnapshotExists, hann, hsucc, hsigned, hsnaps, hprep,
      HasPipelineRunFinished, HasPipelineRunSucceeded]

def c2Plr : PipelineRun :=
  { name := "pipelinerun-build-sample", labels := [],
    annots := [(chainsSignedKey, "true")],
    results := [("IMAGE_DIGEST", "invalidDigest"),
                ("IMAGE_URL", "quay.io/redhat-appstudio/sample-image"),
                ("CHAINS-GIT_URL", "https://github.com/devfile-samples/devfile-sample-java-springboot-basic"),
                ("CHAINS-GIT_COMMIT", "a2ba645d50e471d5f084b")],
    condStatus := some "True", deleting := false, finalizers := [] }

def c2Ld : LoaderCtx :=
  { resolvedSnapshot := .error .notFound, snapshotsForPLR := .ok [] }

def c2ImageRef : String := "quay.io/redhat-appstudio/sample-image" ++ "@" ++ "invalidDigest"

/-- Witness for C2 at the invalid-digest fixture of the adapter tests. -/
theorem C2_invalid_digest_cancel_witness :
    prepareSnapshotForPipelineRun c2Plr testComp "application-sample" [testComp]
      = .error (.invalidImageDigest testComp.name c2ImageRef)
    ∧ (EnsureSnapshotExists c2Plr testComp "application-sample" [testComp] c2Ld).res
        = stopResult
    ∧ (EnsureSnapshotExists c2Plr testComp "application-sample" [testComp] c2Ld).errMsg
        = none
    ∧ (EnsureSnapshotExists c2Plr testComp "application-sample" [testComp] c2Ld).created
        = []
    ∧ (EnsureSnapshotExists c2Plr testComp "application-sample" [testComp] c2Ld).failureRecord
        = some (mkFailureInfo (.invalidImageDigest testComp.name c2ImageRef))
    ∧ (mkFailureInfo (.invalidImageDigest testComp.name c2ImageRef)).status = "failed"
    ∧ ∃ pre, (mkFailureInfo (.invalidImageDigest testComp.name c2ImageRef)).message
        = pre ++ snapshotErrMsg (.invalidImageDigest testComp.name c2ImageRef) :=
  C2_invalid_digest_cancel c2Plr testComp "application-sample" [testComp] c2Ld
    "quay.io/redhat-appstudio/sample-image" "invalidDigest"
    "https://github.com/devfile-samples/devfile-sample-java-springboot-basic"
    "a2ba645d50e471d5f084b"
    (by decide) rfl (by decide) rfl (by decide) (by decide) (by decide) (by decide)
    (by decide)

def c3Snap : Snapshot :=
  { name := "snapshot-sample", creationTime := 1, labels := [], annots := [],
    components := [] }

def c3Plr : PipelineRun :=
  { name := "pipelinerun-build-sample", labels := [],
    annots := [(snapshotNameKey, "snapshot-sample"), (chainsSignedKey, "true")],
    results := [], condStatus := some "True", deleting := false,
    finalizers := [] }

def c3Ld : LoaderCtx :=
  { resolvedSnapshot := .ok c3Snap, snapshotsForPLR := .ok [c3Snap] }

/-- C3 counterexample: a build PipelineRun re-observed with the Snapshot-name
annotation already written and the Snapshot resolvable satisfies the claim's
precondition, yet EnsureSnapshotExists returns CancelRequest false, not the
claimed true (the pass continues processing; the error is still nil). -/
theorem C3_reobserved_cancel_counterexample :
    lookupMeta c3Plr.annots snapshotNameKey = some "snapshot-sample"
    ∧ c3Ld.resolvedSnapshot = .ok c3Snap
    ∧ (EnsureSnapshotExists c3Plr testComp "application-sample" [] c3Ld).res.cancelRequest
        = false
    ∧ (EnsureSnapshotExists c3Plr testComp "application-sample" [] c3Ld).errMsg
        = none := by
  exact ⟨by decide, rfl, by decide, rfl⟩

/-- C3 as amended: a build PipelineRun re-observed after its Snapshot was
created and the Snapshot-name annotation written makes EnsureSnapshotExists
continue processing (CancelRequest false, as the adapter tests pin) with a
nil error, create no second Snapshot, emit no Created-new-Snapshot log line,
and remove the finalizer. -/
theorem C3_reobserved_no_second_snapshot (plr : PipelineRun) (comp : Component)
    (appName : String) (comps : List Component) (ld : LoaderCtx) (snap : Snapshot)
    (hann : (lookupMeta plr.annots snapshotNameKey).isSome = true)
    (hres : ld.resolvedSnapshot = .ok snap) :
    (EnsureSnapshotExists plr comp appName comps ld).res = continueResult
    ∧ (EnsureSnapshotExists plr comp appName comps ld).errMsg = none
    ∧ (EnsureSnapshotExists plr comp appName comps ld).created = []
    ∧ (EnsureSnapshotExists plr comp appName comps ld).finalizerRemoved = true
    ∧ createdSnapshotLogMsg ∉ (EnsureSnapshotExists plr comp appName comps ld).logs := by
  refine ⟨?_, ?_, ?_, ?_, ?_⟩ <;>
    simp [EnsureSnapshotExists, hann, hres, createdSnapshotLogMsg, annotatedLogMsg]

/-- Witness for the amended C3 at the re-observation fixture. -/
theorem C3_reobserved_no_second_snapshot_witness :
    (EnsureSnapshotExists c3Plr testComp "application-sample" [] c3Ld).res
        = continueResult
    ∧ (EnsureSnapshotExists c3Plr testComp "application-sample" [] c3Ld).errMsg = none
    ∧ (EnsureSnapshotExists c3Plr testComp "application-sample" [] c3Ld).created = []
    ∧ (EnsureSnapshotExists c3Plr testComp "application-sample" [] c3Ld).finalizerRemoved
        = true
    ∧ createdSnapshotLogMsg
        ∉ (EnsureSnapshotExists c3Plr testComp "application-sample" [] c3Ld).logs :=
  C3_reobserved_no_second_snapshot c3Plr testComp "application-sample" [] c3Ld
    c3Snap (by decide) rfl

end IntegrationSvc
